import Mathlib

/-!
Verification of the Archivo Venezuela metadata pipeline.

Shallow embedding of the Python sources:
- `utils/translation.py`   → namespace `Translation`
- `utils/fetch_helpers.py` → namespace `FetchHelpers`
- `utils/omeka_api.py`     → namespace `OmekaApi`
- `utils/fast_semantic_enrichment.py` → namespace `Enrichment`
- `pages/4_Metadata_Aggregator.py`    → namespace `Aggregator`
- `pages/5_DublinCore_Mapper.py`      → namespace `DCMapper`

External effects (the Google-translate provider, the KeyBERT model, HTTP
responses, `json.load`/`json.dump`) are passed in as explicit function or
value parameters; an `Option` result `none` models a raised exception or a
failed call. Python `None` values are `Option.none`; Python strings are
`String`; Python dicts handled generically by the code are association
lists `List (String × String)`.
-/

namespace Py

/-- Python `str.strip()`: drop leading and trailing whitespace. Implemented
over the character list so that it evaluates by kernel reduction. -/
def strip (s : String) : String :=
  String.mk (((s.data.dropWhile Char.isWhitespace).reverse.dropWhile
    Char.isWhitespace).reverse)

/-- Python `str.lower()` (ASCII case folding, as used on the short
provider answers compared here). -/
def lower (s : String) : String :=
  String.mk (s.data.map Char.toLower)

/-- Python `a or b` on two optional strings (`dict.get` results): the first
truthy (present and non-empty) value wins; both falsy gives the second
value's falsy content collapsed to the empty string. -/
def orOpt (a b : Option String) : Option String :=
  match a with
  | some s => if s ≠ "" then some s else b
  | none => b

/-- Python `a or b or ""` collapsing to a string. -/
def orStr (a b : Option String) : String :=
  match orOpt a b with
  | some s => s
  | none => ""

/-- Python `x or y` on two strings. -/
def orS (a b : String) : String :=
  if a ≠ "" then a else b

/-- Python `d.get(k, "")` over an association-list model of a dict. -/
def getD (row : List (String × String)) (k : String) : String :=
  (row.lookup k).getD ""

/-- Python `str.title()`: upper-case an alphabetic character that starts an
alphabetic run, lower-case the rest, leave other characters alone. -/
def titleAux : Bool → List Char → List Char
  | _, [] => []
  | prevAlpha, c :: rest =>
    if c.isAlpha then
      (if prevAlpha then c.toLower else c.toUpper) :: titleAux true rest
    else
      c :: titleAux false rest

/-- Python `str.title()` on a string. -/
def title (s : String) : String :=
  String.mk (titleAux false s.data)

/-- Python `list(dict.fromkeys(l))`: de-duplicate keeping the first
occurrence of each element, preserving order. -/
def dedupAux (seen : List String) : List String → List String
  | [] => []
  | x :: rest =>
    if seen.contains x then dedupAux seen rest
    else x :: dedupAux (x :: seen) rest

/-- De-duplication entry point (`dict.fromkeys` with an empty seed). -/
def dedup (l : List String) : List String :=
  dedupAux [] l

end Py

namespace Translation

/-- The `_MANUAL_MAP` dictionary of `utils/translation.py`. -/
def MANUAL_MAP : List (String × String) :=
  [("Short stories", "Cuentos cortos"),
   ("Fiction", "Ficción"),
   ("Novels", "Novelas"),
   ("Politics", "Política"),
   ("Refugees", "Refugiados"),
   ("Venezuela", "Venezuela"),
   ("Poetry", "Poesía"),
   ("History", "Historia"),
   ("Migration", "Migración"),
   ("Book", "Libro"),
   ("Literature", "Literatura"),
   ("Culture", "Cultura")]

/-- `translate_text` of `utils/translation.py`. The provider
`p query targetLang` models `translator.translate(query, dest=...)`
followed by `.text`; `none` models a raised exception. The input `none`
models Python `None` (caught by the `not text` guard). Both provider calls
sit inside one `try`, so a `none` from either lands in the `except` branch
returning the stripped input. -/
def translate_text (p : String → String → Option String)
    (input : Option String) (targetLang : String) : String :=
  match input with
  | none => ""
  | some s =>
    if Py.strip s = "" then ""
    else
      let text := Py.strip s
      match MANUAL_MAP.lookup text with
      | some v => v
      | none =>
        match p text targetLang with
        | none => text
        | some r =>
          let translated := Py.strip r
          if Py.lower translated = Py.lower text then
            match p (Py.lower text) targetLang with
            | none => text
            | some r2 =>
              let translated2 := Py.strip r2
              if Py.lower translated2 ≠ Py.lower text then translated2
              else translated
          else translated

end Translation

/-- Claim C3: for every input text that is a key of the manual override
dictionary, `translate_text` returns exactly the dictionary's mapped value,
for every possible behaviour of the underlying translation provider. -/
theorem c3_manual_map_wins (p : String → String → Option String)
    (targetLang : String) (k v : String)
    (h : (k, v) ∈ Translation.MANUAL_MAP) :
    Translation.translate_text p (some k) targetLang = v := by
  fin_cases h <;> rfl

/-- Witness for C3 at the key "Migration", with a provider that would
return something else. -/
theorem c3_manual_map_wins_witness :
    Translation.translate_text (fun _ _ => some "WRONG") (some "Migration")
      "es" = "Migración" :=
  c3_manual_map_wins (fun _ _ => some "WRONG") "es" "Migration" "Migración"
    (by decide)

/-- Claim C9 (implicit): a `None`, empty, or all-whitespace input yields the
empty string; for other inputs the value looked up in the manual map, the
value returned on provider failure, and the mapped value on a map hit are
all taken from the whitespace-trimmed form of the input. -/
theorem c9_trim_normalisation (p : String → String → Option String)
    (targetLang : String) (s : String) :
    Translation.translate_text p none targetLang = ""
    ∧ (Py.strip s = "" → Translation.translate_text p (some s) targetLang = "")
    ∧ (Py.strip s ≠ "" → Translation.MANUAL_MAP.lookup (Py.strip s) = none →
        p (Py.strip s) targetLang = none →
        Translation.translate_text p (some s) targetLang = Py.strip s)
    ∧ (∀ v, Py.strip s ≠ "" → Translation.MANUAL_MAP.lookup (Py.strip s) = some v →
        Translation.translate_text p (some s) targetLang = v) := by
  refine ⟨rfl, ?_, ?_, ?_⟩
  · intro h
    simp [Translation.translate_text, h]
  · intro h hmap hp
    simp [Translation.translate_text, h, hmap, hp]
  · intro v h hmap
    simp [Translation.translate_text, h, hmap]

/-- Witness for C9: a whitespace-only input gives `""`; an input with
surrounding whitespace and a failing provider gives its trimmed form. -/
theorem c9_trim_normalisation_witness :
    Translation.translate_text (fun _ _ => none) (some "   ") "es" = ""
    ∧ Translation.translate_text (fun _ _ => none) (some "  hola mundo  ")
        "es" = "hola mundo" :=
  ⟨(c9_trim_normalisation (fun _ _ => none) "es" "   ").2.1 (by decide),
   (c9_trim_normalisation (fun _ _ => none) "es" "  hola mundo  ").2.2.1
     (by decide) (by decide) rfl⟩

namespace FetchHelpers

/-- The module-level `_token_cache` dict of `utils/fetch_helpers.py`.
`token = none` models the initial `None`; times are rationals standing for
the real-valued `time.time()` clock. -/
structure TokenCache where
  token : Option String
  expires_at : ℚ
deriving DecidableEq

/-- Python truthiness of `_token_cache["token"]`. -/
def TokenCache.hasToken (c : TokenCache) : Bool :=
  match c.token with
  | some t => t ≠ ""
  | none => false

/-- The guard `_token_cache["token"] and _token_cache["expires_at"] > now + 10`. -/
def TokenCache.valid (c : TokenCache) (now : ℚ) : Bool :=
  c.hasToken && decide (now + 10 < c.expires_at)

/-- A credential-exchange response: `none` models a non-200 status (the
function raises); `some (tok, ein)` models a 200 body with `access_token`
`tok` and optional `expires_in` `ein`. -/
def ExchangeResp := Option (String × Option ℚ)

/-- `fetch_oclc_token` of `utils/fetch_helpers.py`, acting on an explicit
cache. The result is `none` on the raised `Token Error`; otherwise the
returned token, the updated cache, and whether a credential exchange was
performed. -/
def fetch_oclc_token (resp : ExchangeResp) (cache : TokenCache) (now : ℚ) :
    Option (String × TokenCache × Bool) :=
  if cache.valid now then
    match cache.token with
    | some t => some (t, cache, false)
    | none => none
  else
    match resp with
    | none => none
    | some (tok, ein) =>
      some (tok, ⟨some tok, now + ein.getD 3600⟩, true)

end FetchHelpers

/-- Claim C2: a cached token with strictly more than 10 seconds of validity
is returned with no exchange; otherwise a fresh exchange is performed and
its token stored with lifetime `expires_in` (3600 when omitted) and
returned. In particular 5 remaining seconds trigger an exchange and 3600
remaining seconds do not. -/
theorem c2_token_cache (resp : FetchHelpers.ExchangeResp)
    (cache : FetchHelpers.TokenCache) (now : ℚ) (t tok : String)
    (ein : Option ℚ) :
    (cache.token = some t → t ≠ "" → now + 10 < cache.expires_at →
      FetchHelpers.fetch_oclc_token resp cache now = some (t, cache, false))
    ∧ (cache.valid now = false → resp = some (tok, ein) →
      FetchHelpers.fetch_oclc_token resp cache now =
        some (tok, ⟨some tok, now + ein.getD 3600⟩, true))
    ∧ (t ≠ "" → resp = some (tok, ein) →
      FetchHelpers.fetch_oclc_token resp ⟨some t, now + 5⟩ now =
        some (tok, ⟨some tok, now + ein.getD 3600⟩, true))
    ∧ (t ≠ "" →
      FetchHelpers.fetch_oclc_token resp ⟨some t, now + 3600⟩ now =
        some (t, ⟨some t, now + 3600⟩, false)) := by
  refine ⟨?_, ?_, ?_, ?_⟩
  · intro htok hne hlt
    have hv : cache.valid now = true := by
      simp [FetchHelpers.TokenCache.valid, FetchHelpers.TokenCache.hasToken,
        htok, hne, hlt]
    simp [FetchHelpers.fetch_oclc_token, hv, htok]
  · intro hv hresp
    simp [FetchHelpers.fetch_oclc_token, hv, hresp]
  · intro hne hresp
    have hv : FetchHelpers.TokenCache.valid ⟨some t, now + 5⟩ now = false := by
      simp [FetchHelpers.TokenCache.valid, FetchHelpers.TokenCache.hasToken]
      intro _
      linarith
    simp [FetchHelpers.fetch_oclc_token, hv, hresp]
  · intro hne
    have hv : FetchHelpers.TokenCache.valid ⟨some t, now + 3600⟩ now = true := by
      simp [FetchHelpers.TokenCache.valid, FetchHelpers.TokenCache.hasToken,
        hne]
      linarith
    simp [FetchHelpers.fetch_oclc_token, hv]

/-- Witness for C2: at time 0, a cache holding "tk" until t=3600 is served
from the cache; a cache holding "tk" until t=5 triggers an exchange whose
response (token "fresh", no `expires_in`) is stored until t=3600. -/
theorem c2_token_cache_witness :
    FetchHelpers.fetch_oclc_token (some ("fresh", none)) ⟨some "tk", 3600⟩ 0 =
      some ("tk", ⟨some "tk", 3600⟩, false)
    ∧ FetchHelpers.fetch_oclc_token (some ("fresh", none)) ⟨some "tk", 5⟩ 0 =
      some ("fresh", ⟨some "fresh", 3600⟩, true) := by
  constructor
  · have h := (c2_token_cache (some ("fresh", none)) ⟨some "tk", 3600⟩ 0 "tk"
      "fresh" none).2.2.2 (by decide)
    simpa using h
  · have h := (c2_token_cache (some ("fresh", none)) ⟨some "tk", 5⟩ 0 "tk"
      "fresh" none).2.2.1 (by decide) rfl
    simpa using h

namespace Py

/-- A successful association-list lookup comes from a member pair. -/
theorem mem_of_lookup_eq_some {α β : Type} [BEq α] [LawfulBEq α]
    {l : List (α × β)} {k : α} {v : β} (h : l.lookup k = some v) :
    (k, v) ∈ l := by
  induction l with
  | nil => simp [List.lookup] at h
  | cons a l ih =>
    obtain ⟨ka, va⟩ := a
    rw [List.lookup] at h
    by_cases hk : k = ka
    · subst hk
      simp at h
      simp [h]
    · have : (k == ka) = false := by simp [hk]
      rw [this] at h
      exact List.mem_cons_of_mem _ (ih h)

end Py

namespace OmekaApi

/-- The `DC_ELEMENTS` field-id scheme of `utils/omeka_api.py`. -/
def DC_ELEMENTS : List (String × Nat) :=
  [("Title (English)", 50),
   ("Title (Spanish)", 50),
   ("Author (English)", 39),
   ("Author (Spanish)", 39),
   ("Subjects (English)", 49),
   ("Subjects (Spanish)", 49),
   ("Description (English)", 41),
   ("Description (Spanish)", 41),
   ("Date", 40),
   ("Language (English)", 44),
   ("Language (Spanish)", 44),
   ("Publisher (English)", 45),
   ("Publisher (Spanish)", 45),
   ("Format (English)", 42),
   ("Format (Spanish)", 42)]

/-- One entry of the `element_texts` list built by `row_to_omeka_json`. -/
structure ElementText where
  element_id : Nat
  text : String
  html : Bool
deriving DecidableEq

/-- The outgoing Omeka payload. -/
structure OmekaPayload where
  public : Bool
  featured : Bool
  element_texts : List ElementText
deriving DecidableEq

/-- One iteration of the `for col, value in row.items()` loop: skip when
`str(value).strip()` is empty, skip when `DC_ELEMENTS.get(col)` is missing
(or falsy, i.e. 0), otherwise emit the element. -/
def elemOf (cv : String × String) : Option ElementText :=
  if Py.strip cv.2 = "" then none
  else
    match DC_ELEMENTS.lookup cv.1 with
    | none => none
    | some eid => if eid = 0 then none else some ⟨eid, cv.2, false⟩

/-- `row_to_omeka_json` of `utils/omeka_api.py`, over an association-list
model of the row. -/
def row_to_omeka_json (row : List (String × String)) : OmekaPayload :=
  { public := true
    featured := false
    element_texts := row.filterMap elemOf }

/-- An emitted element records a key of the scheme, the untrimmed value,
and `html = false`. -/
theorem elemOf_some {c v : String} {e : ElementText}
    (h : elemOf (c, v) = some e) :
    (c, e.element_id) ∈ DC_ELEMENTS ∧ e.text = v ∧ e.html = false ∧
      Py.strip v ≠ "" := by
  unfold elemOf at h
  split at h
  · simp at h
  · rename_i hne
    split at h
    · simp at h
    · rename_i eid heq
      split at h
      · simp at h
      · cases h
        exact ⟨Py.mem_of_lookup_eq_some heq, rfl, rfl, hne⟩

/-- Only the key "Date" carries field id 40. -/
theorem key_of_id40 {c : String} (h : (c, 40) ∈ DC_ELEMENTS) : c = "Date" := by
  simp [DC_ELEMENTS, Prod.ext_iff] at h
  exact h

/-- Only the two title keys carry field id 50. -/
theorem key_of_id50 {c : String} (h : (c, 50) ∈ DC_ELEMENTS) :
    c = "Title (English)" ∨ c = "Title (Spanish)" := by
  simp [DC_ELEMENTS, Prod.ext_iff] at h
  tauto

end OmekaApi

namespace OmekaApi

/-- If neither title field of a row has a non-blank value, no element with
field id 50 is emitted. -/
theorem count50_eq_zero (row : List (String × String))
    (hEN : ∀ w, ("Title (English)", w) ∈ row → Py.strip w = "")
    (hES : ∀ w, ("Title (Spanish)", w) ∈ row → Py.strip w = "") :
    (row.filterMap elemOf).countP (fun e => e.element_id == 50) = 0 := by
  rw [List.countP_eq_zero]
  intro e he
  rw [List.mem_filterMap] at he
  obtain ⟨⟨c, w⟩, hmem, hel⟩ := he
  obtain ⟨hdc, -, -, hne⟩ := elemOf_some hel
  simp only [beq_iff_eq]
  intro h50
  rw [h50] at hdc
  rcases key_of_id50 hdc with hc | hc <;> subst hc
  · exact hne (hEN w hmem)
  · exact hne (hES w hmem)

/-- With distinct keys, a non-blank "Title (English)" and no non-blank
"Title (Spanish)", exactly one element with field id 50 is emitted. -/
theorem count50_eq_one (row : List (String × String)) (v : String)
    (hnd : (row.map Prod.fst).Nodup)
    (hv : ("Title (English)", v) ∈ row) (hvne : Py.strip v ≠ "")
    (hES : ∀ w, ("Title (Spanish)", w) ∈ row → Py.strip w = "") :
    (row.filterMap elemOf).countP (fun e => e.element_id == 50) = 1 := by
  induction row with
  | nil => simp at hv
  | cons cu rest ih =>
    obtain ⟨c, u⟩ := cu
    simp only [List.map_cons, List.nodup_cons] at hnd
    obtain ⟨hcnot, hndrest⟩ := hnd
    rcases List.mem_cons.mp hv with hhead | htail
    · obtain ⟨hc, hu⟩ := Prod.mk.injEq .. ▸ hhead
      subst hc
      subst hu
      have hel : elemOf ("Title (English)", v) = some ⟨50, v, false⟩ := by
        unfold elemOf
        rw [if_neg hvne]
        rfl
      rw [List.filterMap_cons, hel, List.countP_cons]
      have hz : (rest.filterMap elemOf).countP
          (fun e => e.element_id == 50) = 0 := by
        refine count50_eq_zero rest ?_ ?_
        · intro w hw
          exact absurd (List.mem_map_of_mem Prod.fst hw) hcnot
        · intro w hw
          exact hES w (List.mem_cons_of_mem _ hw)
      simp [hz]
    · have hcne : c ≠ "Title (English)" := by
        intro hc
        subst hc
        exact hcnot (List.mem_map_of_mem Prod.fst htail)
      have hrest := ih hndrest htail
        (fun w hw => hES w (List.mem_cons_of_mem _ hw))
      cases hel : elemOf (c, u) with
      | none =>
        rw [List.filterMap_cons, hel]
        exact hrest
      | some e =>
        rw [List.filterMap_cons, hel, List.countP_cons]
        have h50 : (e.element_id == 50) = false := by
          obtain ⟨hdc, -, -, hne⟩ := elemOf_some hel
          simp only [beq_eq_false_iff_ne]
          intro h50
          rw [h50] at hdc
          rcases key_of_id50 hdc with hc | hc
          · exact hcne hc
          · subst hc
            exact hne (hES u (List.mem_cons_self _ _))
        simp [h50, hrest]

end OmekaApi

/-- Claim C4, counterexample: a row carrying both a non-empty
"Title (English)" and a non-empty "Title (Spanish)" yields two elements
with field id 50, not exactly one. -/
theorem c4_counterexample :
    ((OmekaApi.row_to_omeka_json
        [("Title (English)", "A"), ("Title (Spanish)", "B")]).element_texts.countP
      (fun e => e.element_id == 50)) = 2 ∧ (2 : Nat) ≠ 1 := by
  constructor
  · rfl
  · decide

/-- Claim C4 as amended: a row whose "Date" values are all blank after
trimming yields no element with field id 40; a row with distinct keys, a
non-blank "Title (English)" and no non-blank "Title (Spanish)" yields
exactly one element with field id 50 (with a non-blank Spanish title a
second id-50 element appears); and rows whose keys are all outside the
fixed scheme yield no elements at all. -/
theorem c4_field_mapping (row : List (String × String)) (v : String) :
    ((∀ w, ("Date", w) ∈ row → Py.strip w = "") →
      (OmekaApi.row_to_omeka_json row).element_texts.countP
        (fun e => e.element_id == 40) = 0)
    ∧ ((row.map Prod.fst).Nodup → ("Title (English)", v) ∈ row →
        Py.strip v ≠ "" →
        (∀ w, ("Title (Spanish)", w) ∈ row → Py.strip w = "") →
      (OmekaApi.row_to_omeka_json row).element_texts.countP
        (fun e => e.element_id == 50) = 1)
    ∧ ((∀ kv ∈ row, OmekaApi.DC_ELEMENTS.lookup kv.1 = none) →
      (OmekaApi.row_to_omeka_json row).element_texts = []) := by
  refine ⟨?_, ?_, ?_⟩
  · intro hdate
    rw [List.countP_eq_zero]
    intro e he
    rw [OmekaApi.row_to_omeka_json, List.mem_filterMap] at he
    obtain ⟨⟨c, w⟩, hmem, hel⟩ := he
    obtain ⟨hdc, -, -, hne⟩ := OmekaApi.elemOf_some hel
    simp only [beq_iff_eq]
    intro h40
    rw [h40] at hdc
    have hc := OmekaApi.key_of_id40 hdc
    subst hc
    exact hne (hdate w hmem)
  · intro hnd hv hvne hES
    exact OmekaApi.count50_eq_one row v hnd hv hvne hES
  · intro hnone
    rw [OmekaApi.row_to_omeka_json]
    simp only [List.filterMap_eq_nil_iff]
    intro kv hkv
    obtain ⟨c, w⟩ := kv
    unfold OmekaApi.elemOf
    rw [hnone (c, w) hkv]
    split <;> rfl

/-- Witness for the amended C4 on concrete rows: a blank Date yields no
id-40 element, a lone non-empty English title yields one id-50 element,
and an unknown key yields nothing. -/
theorem c4_field_mapping_witness :
    ((OmekaApi.row_to_omeka_json
        [("Title (English)", "Casa"), ("Date", "  ")]).element_texts.countP
      (fun e => e.element_id == 40) = 0)
    ∧ ((OmekaApi.row_to_omeka_json
        [("Title (English)", "Casa"), ("Date", "  ")]).element_texts.countP
      (fun e => e.element_id == 50) = 1)
    ∧ (OmekaApi.row_to_omeka_json [("oclc", "42")]).element_texts = [] := by
  refine ⟨?_, ?_, ?_⟩
  · refine (c4_field_mapping [("Title (English)", "Casa"), ("Date", "  ")]
      "Casa").1 ?_
    intro w hw
    simp [Prod.ext_iff] at hw
    subst hw
    rfl
  · refine (c4_field_mapping [("Title (English)", "Casa"), ("Date", "  ")]
      "Casa").2.1 (by decide) (by decide) (by decide) ?_
    intro w hw
    simp [Prod.ext_iff] at hw
  · refine (c4_field_mapping [("oclc", "42")] "").2.2 ?_
    intro kv hkv
    simp [Prod.ext_iff] at hkv
    rw [hkv.1]
    rfl

/-- Claim C10 (implicit): every payload built by `row_to_omeka_json` is
public, not featured, and all its elements carry `html = false`. -/
theorem c10_payload_invariants (row : List (String × String)) :
    (OmekaApi.row_to_omeka_json row).public = true
    ∧ (OmekaApi.row_to_omeka_json row).featured = false
    ∧ ((OmekaApi.row_to_omeka_json row).element_texts.all
        (fun e => e.html == false)) = true := by
  refine ⟨rfl, rfl, ?_⟩
  rw [List.all_eq_true]
  intro e he
  rw [OmekaApi.row_to_omeka_json, List.mem_filterMap] at he
  obtain ⟨⟨c, w⟩, -, hel⟩ := he
  obtain ⟨-, -, hhtml, -⟩ := OmekaApi.elemOf_some hel
  simp [hhtml]

namespace Enrichment

/-- The text blob `f"{title}. {description}".strip()` that
`extract_semantic_keywords` hands to the phrase-extraction model. -/
def blob (title description : String) : String :=
  Py.strip (title ++ ". " ++ description)

/-- `extract_semantic_keywords` of `utils/fast_semantic_enrichment.py`.
The model `kw text ngram stopWords topN` stands for
`kw_model.extract_keywords(text, keyphrase_ngram_range=ngram,
stop_words=stopWords, top_n=topN)`, returning scored phrases; `none`
models a raised exception (caught, yielding `[]`). The score type is
abstract since scores are discarded. -/
def extract_semantic_keywords {σ : Type}
    (kw : String → Nat × Nat → String → Nat → Option (List (String × σ)))
    (title description : String) : List String :=
  let text := blob title description
  if text = "" then []
  else
    match kw text (1, 3) "english" 8 with
    | none => []
    | some keywords =>
      let subjects := keywords.map Prod.fst
      Py.dedup ((subjects.filter (fun s => 2 < s.length)).map
        (fun s => Py.strip (Py.title s)))

end Enrichment

/-- Claim C6, counterexample: with both title and description empty the
blob is "." rather than empty, so the model is consulted; a model that
returns a phrase for "." makes the extractor return it, refuting both
"returns an empty sequence" and "the model is never invoked". -/
theorem c6_counterexample :
    Enrichment.extract_semantic_keywords
        (fun _ _ _ _ => some [("exile narratives", ())]) "" "" =
      ["Exile Narratives"]
    ∧ Enrichment.extract_semantic_keywords
        (fun _ _ _ _ => (none : Option (List (String × Unit)))) "" "" = []
    ∧ ["Exile Narratives"] ≠ ([] : List String) := by
  refine ⟨rfl, rfl, by decide⟩

/-- Claim C6 as amended: for empty title and description the concatenated
blob is "." (non-empty after trimming), so the phrase-extraction model is
invoked on "."; the extractor returns the empty sequence when that
invocation raises (and, more generally, whenever the model yields no
phrase longer than two characters). -/
theorem c6_empty_record {σ : Type}
    (kw : String → Nat × Nat → String → Nat → Option (List (String × σ))) :
    Enrichment.blob "" "" = "."
    ∧ Enrichment.blob "" "" ≠ ""
    ∧ (kw "." (1, 3) "english" 8 = none →
        Enrichment.extract_semantic_keywords kw "" "" = [])
    ∧ (∀ kws, kw "." (1, 3) "english" 8 = some kws →
        (∀ p ∈ kws, ¬ 2 < p.1.length) →
        Enrichment.extract_semantic_keywords kw "" "" = []) := by
  have hdot : Enrichment.blob "" "" = "." := rfl
  refine ⟨rfl, by decide, ?_, ?_⟩
  · intro hk
    simp [Enrichment.extract_semantic_keywords, hdot, hk]
  · intro kws hk hshort
    have hfilter : (kws.map Prod.fst).filter (fun s => 2 < s.length) = [] := by
      rw [List.filter_eq_nil_iff]
      intro s hs
      rw [List.mem_map] at hs
      obtain ⟨p, hp, hps⟩ := hs
      simp only [decide_eq_true_eq]
      rw [← hps]
      exact hshort p hp
    simp [Enrichment.extract_semantic_keywords, hdot, hk, hfilter,
      Py.dedup, Py.dedupAux]

/-- Witness for the amended C6: a model that raises on "." yields `[]`, and
one that returns only the two-character phrase "ok" also yields `[]`. -/
theorem c6_empty_record_witness :
    Enrichment.extract_semantic_keywords
        (fun _ _ _ _ => (none : Option (List (String × Unit)))) "" "" = []
    ∧ Enrichment.extract_semantic_keywords
        (fun _ _ _ _ => some [("ok", ())]) "" "" = [] := by
  constructor
  · exact (c6_empty_record (fun _ _ _ _ =>
      (none : Option (List (String × Unit))))).2.2.1 rfl
  · refine (c6_empty_record (fun _ _ _ _ =>
      some [("ok", ())])).2.2.2 [("ok", ())] rfl ?_
    intro p hp
    simp [Prod.ext_iff] at hp
    rw [hp]
    decide

namespace Aggregator

/-- One line of `data/source_log.csv`. -/
structure LogEntry where
  timestamp : String
  source : String
  count : Nat
deriving DecidableEq

/-- The two files `save_outputs` touches: `raw_metadata.json` content
(`none` = absent) and the source log lines. -/
structure AggState where
  raw_metadata : Option String
  source_log : List LogEntry
deriving DecidableEq

/-- `save_outputs` of `pages/4_Metadata_Aggregator.py`. `load` models
`json.load` (`none` = parse error, treated as an empty collection) and
`dump` models `json.dump`; the record type is opaque to this function,
which only concatenates and re-serialises. -/
def save_outputs {α : Type} (load : String → Option (List α))
    (dump : List α → String) (st : AggState) (rows : List α)
    (ts source : String) : AggState :=
  let existing : List α :=
    match st.raw_metadata with
    | none => []
    | some c => (load c).getD []
  { raw_metadata := some (dump (existing ++ rows))
    source_log := st.source_log ++ [⟨ts, source, rows.length⟩] }

/-- A concrete serialiser used to witness the round-trip hypothesis:
records are opaque tokens written as one character each. -/
def dumpU (l : List Unit) : String :=
  String.mk (l.map (fun _ => 'x'))

/-- The matching parser: rejects (as `json.load` would) any content not of
the serialised shape. -/
def loadU (s : String) : Option (List Unit) :=
  if s.data.all (fun c => c == 'x') then some (s.data.map (fun _ => ()))
  else none

/-- Serialised unit lists consist of 'x' characters only. -/
theorem dumpU_all_x (l : List Unit) :
    ((l.map (fun _ => 'x')).all (fun c => c == 'x')) = true := by
  induction l with
  | nil => rfl
  | cons a t ih => simp [ih]

/-- A list of unit tokens is the replicate of its length. -/
theorem unit_replicate (l : List Unit) : List.replicate l.length () = l := by
  induction l with
  | nil => rfl
  | cons a t ih =>
    cases a
    simp [List.replicate_succ, ih]

/-- Decoding the serialised characters recovers the token list. -/
theorem dumpU_decode (l : List Unit) :
    ((l.map (fun _ => 'x')).map (fun _ => ())) = l := by
  induction l with
  | nil => rfl
  | cons a t ih =>
    cases a
    simp [ih, unit_replicate]

/-- The witness serialiser round-trips. -/
theorem loadU_dumpU (l : List Unit) : loadU (dumpU l) = some l := by
  unfold loadU dumpU
  simp [dumpU_all_x, dumpU_decode, unit_replicate]

end Aggregator

/-- Claim C5, counterexample: a persisted collection file holding content
that does not parse ("oops") is rewritten by an empty-batch append to the
serialisation of the empty collection, so the file is not left
byte-for-identical. -/
theorem c5_counterexample :
    Aggregator.save_outputs Aggregator.loadU Aggregator.dumpU
        ⟨some "oops", []⟩ [] "2024-01-01T00:00:00Z" "omdb" =
      ⟨some "", [⟨"2024-01-01T00:00:00Z", "omdb", 0⟩]⟩
    ∧ (some "" : Option String) ≠ some "oops" := by
  constructor
  · rfl
  · decide

/-- Claim C5 as amended: whenever the prior persisted content is itself the
serialisation of a record list — in particular whenever it was last
written by `save_outputs` — appending an empty batch leaves the content
byte-for-identical and appends exactly one log line with count 0; an
absent or unparseable file is instead rewritten as the serialisation of
the empty collection. -/
theorem c5_empty_append {α : Type} (load : String → Option (List α))
    (dump : List α → String) (hround : ∀ l, load (dump l) = some l)
    (l : List α) (log : List Aggregator.LogEntry) (ts source : String) :
    Aggregator.save_outputs load dump ⟨some (dump l), log⟩ [] ts source =
      ⟨some (dump l), log ++ [⟨ts, source, 0⟩]⟩ := by
  unfold Aggregator.save_outputs
  simp [hround l]

/-- Witness for the amended C5 with the unit serialiser on a two-record
collection. -/
theorem c5_empty_append_witness :
    Aggregator.save_outputs Aggregator.loadU Aggregator.dumpU
        ⟨some (Aggregator.dumpU [(), ()]), []⟩ [] "t" "worldcat" =
      ⟨some (Aggregator.dumpU [(), ()]), [⟨"t", "worldcat", 0⟩]⟩ :=
  c5_empty_append Aggregator.loadU Aggregator.dumpU Aggregator.loadU_dumpU
    [(), ()] [] "t" "worldcat"

namespace Py

/-- Python `"; ".join(l)`-style joining. -/
def join (sep : String) : List String → String
  | [] => ""
  | x :: rest => rest.foldl (fun acc y => acc ++ sep ++ y) x

/-- Python `s.split(";")` over the character list (kernel-reducible, unlike
`String.splitOn`). An empty string yields `[""]`, as in Python. -/
def splitSemiAux (cur : List Char) : List Char → List (List Char)
  | [] => [cur.reverse]
  | c :: rest =>
    if c = ';' then cur.reverse :: splitSemiAux [] rest
    else splitSemiAux (c :: cur) rest

/-- Python `s.split(";")`. -/
def splitSemi (s : String) : List String :=
  (splitSemiAux [] s.data).map String.mk

end Py

namespace FetchHelpers

/-- A JSON-like WorldCat payload value (the shapes `clean_worldcat_data`
reads: string leaves, objects, arrays). -/
inductive Wc where
  | str : String → Wc
  | obj : List (String × Wc) → Wc
  | arr : List Wc → Wc

/-- One subscript of a `safe_get` chain. -/
inductive Key where
  | name : String → Key
  | idx : Nat → Key

/-- `obj[k]` inside `safe_get`: a missing key, an out-of-range index or a
type mismatch raises in Python and surfaces as `none` here (caught by the
enclosing `try`). -/
def getK : Wc → Key → Option Wc
  | .obj fs, .name s => fs.lookup s
  | .arr xs, .idx n => xs.get? n
  | _, _ => none

/-- `safe_get(obj, *keys)` of `clean_worldcat_data`: walk the subscript
chain, "" on any failure. The fields read by this code end in string
leaves; a non-string endpoint (never produced for them) maps to "". -/
def safe_get (d : Wc) (path : List Key) : String :=
  match path.foldlM getK d with
  | some (.str s) => s
  | _ => ""

/-- The `creators` list reached through `contributor`; any shape mismatch
raises inside the `try` and leaves the author empty, collapsed here to the
empty list. -/
def creatorsOf (data : Wc) : List Wc :=
  match getK data (.name "contributor") with
  | some c =>
    match getK c (.name "creators") with
    | some (.arr l) => l
    | _ => []
  | _ => []

/-- `author_en`: `first_creator.get("name") or
first_creator.get("firstName", {}).get("text", "")` on the first creator,
"" when there is none. -/
def author_en (data : Wc) : String :=
  match creatorsOf data with
  | [] => ""
  | first :: _ =>
    match first with
    | .obj fs =>
      Py.orStr
        (match fs.lookup "name" with
         | some (.str s) => some s
         | _ => none)
        (some (match fs.lookup "firstName" with
               | some (.obj g) =>
                 match g.lookup "text" with
                 | some (.str s) => s
                 | _ => ""
               | _ => ""))
    | _ => ""

/-- One subjects-loop body: `s.get("subjectName", {}).get("text") or
s.get("label")`, appended when truthy. The outer `none` models a raised
exception, which aborts the whole loop. -/
def subjectOf (s : Wc) : Option (Option String) :=
  match s with
  | .obj fs =>
    match fs.lookup "subjectName" with
    | some (.obj g) =>
      some (Py.orOpt
        (match g.lookup "text" with
         | some (.str t) => some t
         | _ => none)
        (match fs.lookup "label" with
         | some (.str t) => some t
         | _ => none))
    | some _ => none
    | none =>
      some (match fs.lookup "label" with
            | some (.str t) => some t
            | _ => none)
  | _ => none

/-- The subjects loop: gather truthy subject strings, stopping (and keeping
what was gathered) at the first exception. -/
def subjectsAux : List Wc → List String
  | [] => []
  | s :: rest =>
    match subjectOf s with
    | none => []
    | some osubj =>
      match osubj with
      | some t => if t ≠ "" then t :: subjectsAux rest else subjectsAux rest
      | none => subjectsAux rest

/-- `subjects` of `clean_worldcat_data`. -/
def subjectsOf (data : Wc) : List String :=
  match getK data (.name "subjects") with
  | some (.arr l) => subjectsAux l
  | _ => []

/-- `clean_worldcat_data` of `utils/fetch_helpers.py`, with the translation
provider `p` threaded through `translate_text`. -/
def clean_worldcat_data (p : String → String → Option String) (data : Wc)
    (oclc_number : String) : List (String × String) :=
  let title_en := safe_get data
    [.name "title", .name "mainTitles", .idx 0, .name "text"]
  let author := author_en data
  let subjects := subjectsOf data
  let publisher_en := safe_get data
    [.name "publishers", .idx 0, .name "publisherName", .name "text"]
  let description_en := Py.orS
    (safe_get data [.name "description", .name "physicalDescription"])
    (safe_get data [.name "description", .name "abstract"])
  let format_en := safe_get data [.name "format", .name "generalFormat"]
  let pub_date := safe_get data [.name "date", .name "publicationDate"]
  let lang_en := safe_get data [.name "language", .name "itemLanguage"]
  let tr := fun t => Translation.translate_text p (some t) "es"
  [("OCLC Number", oclc_number),
   ("Title (English)", title_en),
   ("Title (Spanish)", tr title_en),
   ("Author (English)", author),
   ("Author (Spanish)", tr author),
   ("Subjects (English)", Py.join "; " subjects),
   ("Subjects (Spanish)", tr (Py.join "; " subjects)),
   ("Publisher (English)", publisher_en),
   ("Publisher (Spanish)", tr publisher_en),
   ("Description (English)", description_en),
   ("Description (Spanish)", tr description_en),
   ("Format (English)", format_en),
   ("Format (Spanish)", tr format_en),
   ("Date", pub_date),
   ("Language (English)", lang_en),
   ("Language (Spanish)", tr lang_en)]

end FetchHelpers

namespace Aggregator

/-- The unified record schema built by the aggregator tabs. -/
structure UnifiedRow where
  source : String
  id : String
  title : String
  creator : String
  description : String
  date : String
  tags : List String
  media_urls : List String
deriving DecidableEq

/-- `[t.strip() for t in x.split(";") if t.strip()]`. -/
def splitTags (x : String) : List String :=
  ((Py.splitSemi x).map Py.strip).filter (fun t => t ≠ "")

/-- The WorldCat tab's remap of a cleaned record to the unified schema
(`pages/4_Metadata_Aggregator.py`, WorldCat batch loop). In the source the
call is `clean_worldcat_data(raw)` — a single argument to a two-parameter
function, so at runtime it raises `TypeError` and the record is skipped;
this embedding models the remap applied to a cleaned record as the
surrounding code intends, to examine the keys it reads. -/
def worldcat_unify (cleaned : List (String × String)) (oclc : String) :
    UnifiedRow :=
  { source := "worldcat"
    id := Py.orStr (cleaned.lookup "Identifier") (some oclc)
    title := Py.orStr (cleaned.lookup "Title") none
    creator := Py.orStr (cleaned.lookup "Creator") none
    description := Py.orStr (cleaned.lookup "Description") none
    date := Py.orStr (cleaned.lookup "Date") none
    tags := splitTags (Py.orStr (cleaned.lookup "Subject (EN)") none)
    media_urls := [] }

/-- The synthetic catalog payload of the end-to-end scenario. -/
def payloadC1 : FetchHelpers.Wc :=
  .obj [("title", .obj [("mainTitles", .arr [.obj [("text", .str "Mi Casa")]])]),
        ("contributor", .obj [("creators",
          .arr [.obj [("name", .str "Juana Pérez")]])]),
        ("subjects", .arr [.obj [("subjectName",
          .obj [("text", .str "Migración")])]])]

end Aggregator

/-- Claim C1: on the synthetic payload, `clean_worldcat_data` does extract
title "Mi Casa", creator "Juana Pérez" and subject "Migración" — but under
the keys "Title (English)", "Author (English)", "Subjects (English)",
while the WorldCat tab's remap reads "Title", "Creator", "Subject (EN)"
and "Identifier", none of which exist; the resulting unified record has an
empty title, creator and tag list, not the one the scenario expects. -/
theorem c1_worldcat_normalize_divergence
    (p : String → String → Option String) :
    Aggregator.worldcat_unify
        (FetchHelpers.clean_worldcat_data p Aggregator.payloadC1 "123") "123" =
      ⟨"worldcat", "123", "", "", "", "", [], []⟩
    ∧ (FetchHelpers.clean_worldcat_data p Aggregator.payloadC1 "123").lookup
        "Title (English)" = some "Mi Casa"
    ∧ (FetchHelpers.clean_worldcat_data p Aggregator.payloadC1 "123").lookup
        "Author (English)" = some "Juana Pérez"
    ∧ (FetchHelpers.clean_worldcat_data p Aggregator.payloadC1 "123").lookup
        "Subjects (English)" = some "Migración"
    ∧ Aggregator.worldcat_unify
        (FetchHelpers.clean_worldcat_data p Aggregator.payloadC1 "123") "123" ≠
      ⟨"worldcat", "123", "Mi Casa", "Juana Pérez", "", "", ["Migración"], []⟩ := by
  have h1 : Aggregator.worldcat_unify
      (FetchHelpers.clean_worldcat_data p Aggregator.payloadC1 "123") "123" =
      ⟨"worldcat", "123", "", "", "", "", [], []⟩ := rfl
  refine ⟨h1, rfl, rfl, rfl, ?_⟩
  rw [h1]
  decide

namespace DCMapper

/-- The local `translate_text` of `pages/5_DublinCore_Mapper.py`: "" for a
`None` or non-string input (modelled by `none`), the provider's answer on
success, and the input unchanged when the provider raises. -/
def translate_text (p : String → Option String) (text : Option String) :
    String :=
  match text with
  | none => ""
  | some s =>
    if s = "" then ""
    else
      match p s with
      | none => s
      | some r => r

/-- On provider failure the local translator returns its input unchanged
(also for the empty string, where both sides are ""). -/
theorem translate_text_fallback (p : String → Option String) (s : String)
    (hp : p s = none) : translate_text p (some s) = s := by
  by_cases hs : s = "" <;> simp [translate_text, hs, hp]

/-- The `required` list of `validate_record`. -/
def required : List String :=
  ["Title (EN)", "Creator (EN)", "Description (EN)", "Date"]

/-- `validate_record` of `pages/5_DublinCore_Mapper.py`. -/
def validate_record (dc_row : List (String × String)) : List String :=
  required.filter (fun r => Py.strip (Py.getD dc_row r) == "")

/-- One record of `raw_metadata.json` as `map_to_dublin_core` reads it:
each string field a `dict.get` result (`none` = key absent), plus the tag
and media-url lists. -/
structure RawItem where
  source : Option String
  id : Option String
  title : Option String
  titleCap : Option String
  creator : Option String
  creatorCap : Option String
  description : Option String
  descriptionCap : Option String
  date : Option String
  dateCap : Option String
  tags : List String
  media_urls : List String

/-- `item.get("title") or item.get("Title") or ""`. -/
def titleOf (item : RawItem) : String :=
  Py.orStr item.title item.titleCap

/-- `item.get("creator") or item.get("Creator") or ""`. -/
def creatorOf (item : RawItem) : String :=
  Py.orStr item.creator item.creatorCap

/-- `item.get("description") or item.get("Description") or ""`. -/
def descOf (item : RawItem) : String :=
  Py.orStr item.description item.descriptionCap

/-- `item.get("date") or item.get("Date") or ""`. -/
def dateOf (item : RawItem) : String :=
  Py.orStr item.date item.dateCap

/-- `map_to_dublin_core` of `pages/5_DublinCore_Mapper.py`, returning the
`dc` dict (insertion order) with its trailing "Missing Fields" entry. -/
def map_to_dublin_core (p : String → Option String) (item : RawItem) :
    List (String × String) :=
  let title := titleOf item
  let creator := creatorOf item
  let desc := descOf item
  let date := dateOf item
  let dc :=
    [("Source", item.source.getD ""),
     ("Identifier", item.id.getD ""),
     ("Title (EN)", title),
     ("Title (ES)", translate_text p (some title)),
     ("Creator (EN)", creator),
     ("Creator (ES)", translate_text p (some creator)),
     ("Description (EN)", desc),
     ("Description (ES)", translate_text p (some desc)),
     ("Date", date),
     ("Tags", Py.join "; " item.tags),
     ("Media URL", match item.media_urls with | [] => "" | u :: _ => u)]
  dc ++ [("Missing Fields", Py.join ", " (validate_record dc))]

end DCMapper

/-- Claim C7: `validate_record` returns exactly the four required names, in
order, when all four are blank after trimming; the empty list when all
four are non-blank; and its result depends only on those four lookups. -/
theorem c7_validate_record (row row2 : List (String × String)) :
    ((∀ k ∈ DCMapper.required, Py.strip (Py.getD row k) = "") →
      DCMapper.validate_record row =
        ["Title (EN)", "Creator (EN)", "Description (EN)", "Date"])
    ∧ ((∀ k ∈ DCMapper.required, Py.strip (Py.getD row k) ≠ "") →
      DCMapper.validate_record row = [])
    ∧ ((∀ k ∈ DCMapper.required, row.lookup k = row2.lookup k) →
      DCMapper.validate_record row = DCMapper.validate_record row2) := by
  refine ⟨?_, ?_, ?_⟩
  · intro h
    have h1 := h "Title (EN)" (by simp [DCMapper.required])
    have h2 := h "Creator (EN)" (by simp [DCMapper.required])
    have h3 := h "Description (EN)" (by simp [DCMapper.required])
    have h4 := h "Date" (by simp [DCMapper.required])
    simp [DCMapper.validate_record, DCMapper.required, List.filter,
      h1, h2, h3, h4]
  · intro h
    have h1 := beq_eq_false_iff_ne.mpr (h "Title (EN)" (by simp [DCMapper.required]))
    have h2 := beq_eq_false_iff_ne.mpr (h "Creator (EN)" (by simp [DCMapper.required]))
    have h3 := beq_eq_false_iff_ne.mpr (h "Description (EN)" (by simp [DCMapper.required]))
    have h4 := beq_eq_false_iff_ne.mpr (h "Date" (by simp [DCMapper.required]))
    simp [DCMapper.validate_record, DCMapper.required, List.filter,
      h1, h2, h3, h4]
  · intro h
    have h1 := h "Title (EN)" (by simp [DCMapper.required])
    have h2 := h "Creator (EN)" (by simp [DCMapper.required])
    have h3 := h "Description (EN)" (by simp [DCMapper.required])
    have h4 := h "Date" (by simp [DCMapper.required])
    simp [DCMapper.validate_record, DCMapper.required, List.filter,
      Py.getD, h1, h2, h3, h4]

/-- Witness for C7: an all-blank record flags all four fields in order; a
fully filled record flags none; an unrelated extra field changes nothing. -/
theorem c7_validate_record_witness :
    DCMapper.validate_record [("Title (EN)", " ")] =
      ["Title (EN)", "Creator (EN)", "Description (EN)", "Date"]
    ∧ DCMapper.validate_record
        [("Title (EN)", "t"), ("Creator (EN)", "c"),
         ("Description (EN)", "d"), ("Date", "1999")] = []
    ∧ DCMapper.validate_record [("Title (EN)", "t"), ("Creator (EN)", "c"),
        ("Description (EN)", "d"), ("Date", "1999"), ("Extra", "zzz")] =
      DCMapper.validate_record [("Title (EN)", "t"), ("Creator (EN)", "c"),
        ("Description (EN)", "d"), ("Date", "1999")] := by
  refine ⟨?_, ?_, ?_⟩
  · exact (c7_validate_record [("Title (EN)", " ")] []).1 (by decide)
  · exact (c7_validate_record [("Title (EN)", "t"), ("Creator (EN)", "c"),
      ("Description (EN)", "d"), ("Date", "1999")] []).2.1 (by decide)
  · exact (c7_validate_record [("Title (EN)", "t"), ("Creator (EN)", "c"),
      ("Description (EN)", "d"), ("Date", "1999"), ("Extra", "zzz")]
      [("Title (EN)", "t"), ("Creator (EN)", "c"),
       ("Description (EN)", "d"), ("Date", "1999")]).2.2 (by decide)

/-- Claim C8: when the provider fails on a field of `map_to_dublin_core`,
the ES column equals the EN column; hence a non-empty EN column gives a
non-empty ES column, and the translation step never raises (it falls back
to the input). -/
theorem c8_translation_fallback (p : String → Option String)
    (item : DCMapper.RawItem) :
    (p (DCMapper.titleOf item) = none →
      Py.getD (DCMapper.map_to_dublin_core p item) "Title (ES)" =
        Py.getD (DCMapper.map_to_dublin_core p item) "Title (EN)")
    ∧ (p (DCMapper.creatorOf item) = none →
      Py.getD (DCMapper.map_to_dublin_core p item) "Creator (ES)" =
        Py.getD (DCMapper.map_to_dublin_core p item) "Creator (EN)")
    ∧ (p (DCMapper.descOf item) = none →
      Py.getD (DCMapper.map_to_dublin_core p item) "Description (ES)" =
        Py.getD (DCMapper.map_to_dublin_core p item) "Description (EN)")
    ∧ (p (DCMapper.titleOf item) = none → DCMapper.titleOf item ≠ "" →
      Py.getD (DCMapper.map_to_dublin_core p item) "Title (ES)" ≠ "")
    ∧ (p (DCMapper.creatorOf item) = none → DCMapper.creatorOf item ≠ "" →
      Py.getD (DCMapper.map_to_dublin_core p item) "Creator (ES)" ≠ "")
    ∧ (p (DCMapper.descOf item) = none → DCMapper.descOf item ≠ "" →
      Py.getD (DCMapper.map_to_dublin_core p item) "Description (ES)" ≠ "")
    ∧ (∀ s, p s = none → DCMapper.translate_text p (some s) = s) := by
  have hT : Py.getD (DCMapper.map_to_dublin_core p item) "Title (ES)" =
      DCMapper.translate_text p (some (DCMapper.titleOf item)) := rfl
  have hTE : Py.getD (DCMapper.map_to_dublin_core p item) "Title (EN)" =
      DCMapper.titleOf item := rfl
  have hC : Py.getD (DCMapper.map_to_dublin_core p item) "Creator (ES)" =
      DCMapper.translate_text p (some (DCMapper.creatorOf item)) := rfl
  have hCE : Py.getD (DCMapper.map_to_dublin_core p item) "Creator (EN)" =
      DCMapper.creatorOf item := rfl
  have hD : Py.getD (DCMapper.map_to_dublin_core p item) "Description (ES)" =
      DCMapper.translate_text p (some (DCMapper.descOf item)) := rfl
  have hDE : Py.getD (DCMapper.map_to_dublin_core p item) "Description (EN)" =
      DCMapper.descOf item := rfl
  refine ⟨?_, ?_, ?_, ?_, ?_, ?_, ?_⟩
  · intro hp
    rw [hT, hTE, DCMapper.translate_text_fallback p _ hp]
  · intro hp
    rw [hC, hCE, DCMapper.translate_text_fallback p _ hp]
  · intro hp
    rw [hD, hDE, DCMapper.translate_text_fallback p _ hp]
  · intro hp hne
    rw [hT, DCMapper.translate_text_fallback p _ hp]
    exact hne
  · intro hp hne
    rw [hC, DCMapper.translate_text_fallback p _ hp]
    exact hne
  · intro hp hne
    rw [hD, DCMapper.translate_text_fallback p _ hp]
    exact hne
  · intro s hp
    exact DCMapper.translate_text_fallback p s hp

/-- Witness for C8 on a concrete record with a failing provider. -/
theorem c8_translation_fallback_witness :
    Py.getD (DCMapper.map_to_dublin_core (fun _ => none)
        ⟨some "omdb", some "id1", some "Casa", none, some "Juana", none,
         some "Una casa", none, some "2001", none, [], []⟩) "Title (ES)" =
      "Casa"
    ∧ Py.getD (DCMapper.map_to_dublin_core (fun _ => none)
        ⟨some "omdb", some "id1", some "Casa", none, some "Juana", none,
         some "Una casa", none, some "2001", none, [], []⟩) "Title (ES)" ≠
      "" := by
  have h := c8_translation_fallback (fun _ => none)
    ⟨some "omdb", some "id1", some "Casa", none, some "Juana", none,
     some "Una casa", none, some "2001", none, [], []⟩
  constructor
  · exact (h.1 rfl).trans rfl
  · exact h.2.2.2.1 rfl (by decide)
